import Mathlib

/-!
Verification development for the WhatsApp-based phone authentication functions
(`functions/src/index.ts`): phone-number normalization (`formatPhoneNumber`),
code issuance (`requestVerification`), code verification and identity
resolution (`verifyCode`), and scheduled cleanup (`cleanupExpiredCodes`).

The Realtime Database is modelled as association lists keyed by strings;
each `Date.now()` call in the source is an explicit clock-read parameter;
the WhatsApp delivery step is an explicit outcome parameter (an exception or
a boolean result) whose failure the source catches and discards.
-/

namespace WhatsAppAuth

/-- `interface VerificationData` (index.ts lines 22-27). -/
structure VerificationData where
  phoneNumber : String
  code : String
  expiresAt : Nat
  createdAt : Nat
deriving DecidableEq, Repr

/-- A user record in the Firebase Auth identity store, as far as the code
touches it: `getUserByPhoneNumber`, `createUser {displayName, phoneNumber}`,
`updateUser uid {displayName}`. -/
structure AuthUser where
  uid : String
  phoneNumber : String
  displayName : String
deriving DecidableEq, Repr

/-- A node under `users/` in the Realtime Database.  The `set` on creation
writes the six `UserData` fields (index.ts lines 30-37, 251-258) and no
`displayName`; the `update` on the existing-user path (lines 234-238) writes
`firstName`, `lastName`, `displayName` and leaves the rest.  Fields are
`Option` because an RTDB `update` on a missing node creates a partial node. -/
structure UserNode where
  firstName : Option String
  lastName : Option String
  displayName : Option String
  phoneNumber : Option String
  uid : Option String
  role : Option String
  createdAt : Option Nat
deriving DecidableEq, Repr

/- ### Phone normalization (index.ts lines 63-78)

JS `phoneNumber.replace(/\D/g, "")` keeps exactly the characters `0`-`9`;
`digits.startsWith("1")` tests the first character; `digits.substring(1)`
drops it; backtick interpolation prepends `+`.  We model JS strings as their
character lists and wrap back into `String`. -/

/-- The list-level body of `formatPhoneNumber`. -/
def formatPhoneNumberL (s : List Char) : List Char :=
  let digits := s.filter Char.isDigit
  if digits.head? = some '1' then
    '+' :: digits
  else if digits.head? = some '0' then
    '+' :: digits.tail
  else if ¬ (s.head? = some '+') then
    '+' :: digits
  else
    s

/-- `formatPhoneNumber` from index.ts lines 63-78. -/
def formatPhoneNumber (s : String) : String :=
  String.mk (formatPhoneNumberL s.data)

/-- The normalization rules exactly as the spec claim words them: its rule 2
additionally requires that the original input had no explicit `+`. -/
def formatPhoneNumberClaimL (s : List Char) : List Char :=
  let digits := s.filter Char.isDigit
  if digits.head? = some '1' ∧ ¬ (s.head? = some '+') then
    '+' :: digits
  else if digits.head? = some '0' then
    '+' :: digits.tail
  else if ¬ (s.head? = some '+') then
    '+' :: digits
  else
    s

/-- String-level wrapper of `formatPhoneNumberClaimL`. -/
def formatPhoneNumberClaim (s : String) : String :=
  String.mk (formatPhoneNumberClaimL s.data)

/-- Canonical international format: a leading `+` followed by digits only. -/
def isPlusDigits (s : String) : Prop :=
  s.data.head? = some '+' ∧ ∀ c ∈ s.data.tail, c.isDigit

instance (s : String) : Decidable (isPlusDigits s) := by
  unfold isPlusDigits; infer_instance

/- ### Association-list model of Realtime Database references -/

/-- Read the child at key `k` (`ref.child(k).once("value")`). -/
def lookupEntry {α : Type} (k : String) (l : List (String × α)) : Option α :=
  (l.find? (fun p => p.1 == k)).map (·.2)

/-- Write the child at key `k` (`ref.child(k).set(v)`). -/
def setEntry {α : Type} (k : String) (v : α) (l : List (String × α)) :
    List (String × α) :=
  if l.any (fun p => p.1 == k) then
    l.map (fun p => if p.1 == k then (k, v) else p)
  else
    (k, v) :: l

/-- Delete the child at key `k` (`ref.child(k).remove()`). -/
def removeEntry {α : Type} (k : String) (l : List (String × α)) :
    List (String × α) :=
  l.filter (fun p => p.1 != k)

@[simp]
theorem lookupEntry_nil {α : Type} (k : String) :
    lookupEntry k ([] : List (String × α)) = none := rfl

@[simp]
theorem lookupEntry_cons {α : Type} (k : String) (p : String × α)
    (l : List (String × α)) :
    lookupEntry k (p :: l) =
      if p.1 = k then some p.2 else lookupEntry k l := by
  by_cases h : p.1 = k <;> simp [lookupEntry, List.find?_cons, h]

@[simp]
theorem lookupEntry_removeEntry_self {α : Type} (k : String)
    (l : List (String × α)) : lookupEntry k (removeEntry k l) = none := by
  induction l with
  | nil => rfl
  | cons p t ih =>
    by_cases h : p.1 = k <;> simp [removeEntry, List.filter_cons, h] at ih ⊢ <;>
      simpa [removeEntry] using ih

theorem lookupEntry_map_overwrite {α : Type} (k : String) (v : α)
    (l : List (String × α)) :
    lookupEntry k (l.map (fun p => if p.1 = k then (k, v) else p)) =
      if l.any (fun p => p.1 == k) then some v else none := by
  induction l with
  | nil => simp
  | cons p t ih =>
    by_cases h : p.1 = k
    · simp [List.any_cons, h]
    · have hb : (p.1 == k) = false := by simp [h]
      rw [List.map_cons, if_neg h, lookupEntry_cons, if_neg h, ih,
        List.any_cons, hb, Bool.false_or]

@[simp]
theorem lookupEntry_setEntry_self {α : Type} (k : String) (v : α)
    (l : List (String × α)) : lookupEntry k (setEntry k v l) = some v := by
  unfold setEntry
  by_cases hany : l.any (fun p => p.1 == k) <;>
    simp [hany, lookupEntry_map_overwrite]

/-- Contents of the `verificationCodes/` reference. -/
abbrev CodesStore := List (String × VerificationData)

/-- The external state the functions touch: the `verificationCodes/`
reference, the Firebase Auth identity store, and the `users/` reference. -/
structure SysState where
  codes : CodesStore
  authUsers : List AuthUser
  users : List (String × UserNode)
deriving DecidableEq, Repr

/-- The distinct responses of the `verifyCode` handler (index.ts 161-289). -/
inductive VerifyResp where
  /-- 405 "Method not allowed" -/
  | methodNotAllowed
  /-- 400 "Code ID and verification code are required" -/
  | missingCodeFields
  /-- 400 "First name and last name are required" -/
  | missingNameFields
  /-- 400 "Verification code not found" -/
  | notFound
  /-- 400 "Verification code has expired" -/
  | expired
  /-- 400 "Incorrect verification code" -/
  | incorrectCode
  /-- 200 `{success, userId, customToken, firstName, lastName}` -/
  | success (userId customToken firstName lastName : String)
deriving DecidableEq, Repr

/-- HTTP status code of each `verifyCode` response. -/
def verifyStatusOf : VerifyResp → Nat
  | .methodNotAllowed => 405
  | .success _ _ _ _ => 200
  | _ => 400

/-- The `error` field of each non-success `verifyCode` response. -/
def verifyErrorOf : VerifyResp → Option String
  | .methodNotAllowed => some "Method not allowed"
  | .missingCodeFields => some "Code ID and verification code are required"
  | .missingNameFields => some "First name and last name are required"
  | .notFound => some "Verification code not found"
  | .expired => some "Verification code has expired"
  | .incorrectCode => some "Incorrect verification code"
  | .success _ _ _ _ => none

/-- `admin.auth().getUserByPhoneNumber` restricted to this model: the lookup
either finds the user with that phone number or reports user-not-found,
which the catch branch at lines 239-263 turns into user creation. -/
def findAuthByPhone (phoneNumber : String) (l : List AuthUser) :
    Option AuthUser :=
  l.find? (fun u => u.phoneNumber == phoneNumber)

/-- `admin.auth().updateUser(uid, {displayName})` (line 229). -/
def updateAuthDisplayName (uid displayName : String) (l : List AuthUser) :
    List AuthUser :=
  l.map (fun u => if u.uid = uid then { u with displayName := displayName } else u)

/-- `admin.auth().createCustomToken(uid)` (line 270), modelled as an
injective token constructor bound to the uid. -/
def createCustomToken (uid : String) : String :=
  "token:" ++ uid

/-- The three fields written by `usersRef.child(uid).update({firstName,
lastName, displayName})` (lines 234-238), merged into an existing node. -/
def mergeNameFields (firstName lastName displayName : String)
    (node : UserNode) : UserNode :=
  { node with firstName := some firstName, lastName := some lastName,
              displayName := some displayName }

/-- RTDB `update` semantics at `users/uid`: merge into the node when it
exists, otherwise create a node holding only the written fields. -/
def rtdbUpdateNames (uid firstName lastName displayName : String)
    (users : List (String × UserNode)) : List (String × UserNode) :=
  match lookupEntry uid users with
  | some node =>
      setEntry uid (mergeNameFields firstName lastName displayName node) users
  | none =>
      setEntry uid
        { firstName := some firstName, lastName := some lastName,
          displayName := some displayName, phoneNumber := none,
          uid := none, role := none, createdAt := none } users

/-- Request body of `verifyCode`; JS falsy-string checks make the empty
string stand for a missing field. -/
structure VerifyReq where
  codeId : String
  code : String
  firstName : String
  lastName : String
deriving DecidableEq, Repr

/-- The `verifyCode` handler (index.ts lines 161-289).  `now` is the
`Date.now()` read at line 201, `createNow` the one at line 257, and
`freshUid` the uid `createUser` would assign. -/
def verifyCode (method : String) (req : VerifyReq) (now createNow : Nat)
    (freshUid : String) (s : SysState) : VerifyResp × SysState :=
  if method ≠ "POST" then (.methodNotAllowed, s)
  else if req.codeId = "" ∨ req.code = "" then (.missingCodeFields, s)
  else if req.firstName = "" ∨ req.lastName = "" then (.missingNameFields, s)
  else
    match lookupEntry req.codeId s.codes with
    | none => (.notFound, s)
    | some verificationData =>
      if verificationData.expiresAt < now then
        (.expired, { s with codes := removeEntry req.codeId s.codes })
      else if verificationData.code ≠ req.code then
        (.incorrectCode, s)
      else
        let displayName := req.firstName ++ " " ++ req.lastName
        match findAuthByPhone verificationData.phoneNumber s.authUsers with
        | some userRecord =>
            (.success userRecord.uid (createCustomToken userRecord.uid)
               req.firstName req.lastName,
             { codes := removeEntry req.codeId s.codes,
               authUsers :=
                 updateAuthDisplayName userRecord.uid displayName s.authUsers,
               users := rtdbUpdateNames userRecord.uid req.firstName
                 req.lastName displayName s.users })
        | none =>
            let newAuthUser : AuthUser :=
              { uid := freshUid, phoneNumber := verificationData.phoneNumber,
                displayName := displayName }
            let userData : UserNode :=
              { firstName := some req.firstName, lastName := some req.lastName,
                displayName := none,
                phoneNumber := some verificationData.phoneNumber,
                uid := some freshUid, role := some "user",
                createdAt := some createNow }
            (.success freshUid (createCustomToken freshUid)
               req.firstName req.lastName,
             { codes := removeEntry req.codeId s.codes,
               authUsers := newAuthUser :: s.authUsers,
               users := setEntry freshUid userData s.users })

/-- The responses of the `requestVerification` handler (index.ts 83-156). -/
inductive ReqResp where
  /-- 405 "Method not allowed" -/
  | methodNotAllowed
  /-- 400 "Phone number is required" -/
  | missingPhone
  /-- 200 `{success, codeId}` -/
  | issued (codeId : String)
deriving DecidableEq, Repr

/-- HTTP status code of each `requestVerification` response. -/
def reqStatusOf : ReqResp → Nat
  | .methodNotAllowed => 405
  | .missingPhone => 400
  | .issued _ => 200

/-- Observable steps of one `requestVerification` invocation, in order. -/
inductive IssueEvent where
  /-- the `codesRef.child(codeId).set(verificationData)` write (line 129) -/
  | persisted (codeId : String) (data : VerificationData)
  /-- the `sendWhatsAppVerificationCode` call (line 133), recording the
  store contents at the moment the call starts and the delivery outcome
  (`Except.error` models a throw, `Except.ok` a returned boolean) -/
  | deliveryAttempted (phoneNumber code : String) (storeAtCall : CodesStore)
      (outcome : Except String Bool)
deriving Repr

/-- The `requestVerification` handler (index.ts lines 83-156).  `now1` and
`now2` are the two `Date.now()` reads at lines 118 and 119;
`verificationCode` is the random 6-digit code and `codeId` the fresh push
key.  A delivery failure is caught and discarded (lines 131-140), so the
outcome parameter flows only into the event trace. -/
def requestVerification (method : String) (phoneNumber? : Option String)
    (now1 now2 : Nat) (verificationCode codeId : String) (store : CodesStore)
    (deliveryOutcome : Except String Bool) :
    ReqResp × CodesStore × List IssueEvent :=
  if method ≠ "POST" then (.methodNotAllowed, store, [])
  else
    match phoneNumber? with
    | none => (.missingPhone, store, [])
    | some phoneNumber =>
      if phoneNumber = "" then (.missingPhone, store, [])
      else
        let formattedPhoneNumber := formatPhoneNumber phoneNumber
        let verificationData : VerificationData :=
          { phoneNumber := formattedPhoneNumber, code := verificationCode,
            expiresAt := now1 + 5 * 60 * 1000, createdAt := now2 }
        let store1 := setEntry codeId verificationData store
        (.issued codeId, store1,
         [.persisted codeId verificationData,
          .deliveryAttempted formattedPhoneNumber verificationCode store1
            deliveryOutcome])

/-- The scheduled `cleanupExpiredCodes` function (index.ts lines 385-406):
query all children with `expiresAt ≤ now` (`orderByChild("expiresAt")
.endAt(now)`), then delete the matched keys in one multi-path update,
skipping the write when nothing matched. -/
def cleanupExpiredCodes (now : Nat) (store : CodesStore) : CodesStore :=
  let expiredKeys :=
    (store.filter (fun p => decide (p.2.expiresAt ≤ now))).map Prod.fst
  if expiredKeys.isEmpty then store
  else store.filter (fun p => !(expiredKeys.contains p.1))

/-! ### Lemmas about the phone normalizer -/

theorem isDigit_plus_false : ('+').isDigit = false := by decide

theorem filter_isDigit_plus_cons (l : List Char) :
    ('+' :: l).filter Char.isDigit = l.filter Char.isDigit := by
  simp [List.filter_cons, isDigit_plus_false]

theorem filter_isDigit_of_all (l : List Char) (h : ∀ a ∈ l, a.isDigit) :
    l.filter Char.isDigit = l :=
  List.filter_eq_self.mpr h

theorem all_isDigit_filter (l : List Char) :
    ∀ a ∈ l.filter Char.isDigit, a.isDigit :=
  fun _ ha => List.of_mem_filter ha

theorem all_isDigit_filter_tail (l : List Char) :
    ∀ a ∈ (l.filter Char.isDigit).tail, a.isDigit :=
  fun a ha => all_isDigit_filter l a (List.mem_of_mem_tail ha)

theorem formatPhoneNumberL_eq (s : List Char) :
    formatPhoneNumberL s =
      if (s.filter Char.isDigit).head? = some '1' then
        '+' :: s.filter Char.isDigit
      else if (s.filter Char.isDigit).head? = some '0' then
        '+' :: (s.filter Char.isDigit).tail
      else if ¬ (s.head? = some '+') then
        '+' :: s.filter Char.isDigit
      else s := rfl

theorem data_formatPhoneNumber (x : String) :
    (formatPhoneNumber x).data = formatPhoneNumberL x.data := rfl

theorem formatPhoneNumber_eq_rule1 (x : String)
    (h1 : (x.data.filter Char.isDigit).head? = some '1') :
    formatPhoneNumber x = String.mk ('+' :: x.data.filter Char.isDigit) := by
  unfold formatPhoneNumber
  rw [formatPhoneNumberL_eq, if_pos h1]

theorem formatPhoneNumber_eq_rule2 (x : String)
    (h1 : ¬ (x.data.filter Char.isDigit).head? = some '1')
    (h0 : (x.data.filter Char.isDigit).head? = some '0') :
    formatPhoneNumber x =
      String.mk ('+' :: (x.data.filter Char.isDigit).tail) := by
  unfold formatPhoneNumber
  rw [formatPhoneNumberL_eq, if_neg h1, if_pos h0]

theorem formatPhoneNumber_eq_rule3 (x : String)
    (h1 : ¬ (x.data.filter Char.isDigit).head? = some '1')
    (h0 : ¬ (x.data.filter Char.isDigit).head? = some '0')
    (hp : ¬ (x.data.head? = some '+')) :
    formatPhoneNumber x = String.mk ('+' :: x.data.filter Char.isDigit) := by
  unfold formatPhoneNumber
  rw [formatPhoneNumberL_eq, if_neg h1, if_neg h0, if_pos hp]

theorem formatPhoneNumber_eq_rule4 (x : String)
    (h1 : ¬ (x.data.filter Char.isDigit).head? = some '1')
    (h0 : ¬ (x.data.filter Char.isDigit).head? = some '0')
    (hp : x.data.head? = some '+') :
    formatPhoneNumber x = x := by
  unfold formatPhoneNumber
  rw [formatPhoneNumberL_eq, if_neg h1, if_neg h0, if_neg (not_not_intro hp)]

/-- C2 — the claimed rule 2 carries an extra "original had no explicit `+`"
condition that the code does not check, and the claimed canonical-output
guarantee fails on rule-5 inputs: on `"+1a"` the code returns `"+1"` while
the claimed rules return the input unchanged, and on `"+5 5"` the code
returns `"+5 5"`, which is not a `+` followed by digits only. -/
theorem formatPhoneNumber_spec_rules_cex :
    formatPhoneNumber "+1a" ≠ formatPhoneNumberClaim "+1a" ∧
    ¬ isPlusDigits (formatPhoneNumber "+5 5") := by
  constructor <;> decide

/-- C2 (amended) — `formatPhoneNumber` strips all non-digits and then: if the
digit string begins with `1` (whether or not the input had a `+`), prefixes
the digits with `+`; else if it begins with `0`, drops that `0` and prefixes
with `+`; else if the input lacked a leading `+`, prefixes the digits with
`+`; else returns the original input unchanged.  Whenever one of the first
three rules fires the output is a leading `+` followed by digits only; a
rule-5 output is the unmodified input and may contain non-digits. -/
theorem formatPhoneNumber_rules_amended (x : String) :
    (((x.data.filter Char.isDigit).head? = some '1') →
        formatPhoneNumber x = String.mk ('+' :: x.data.filter Char.isDigit)) ∧
    (¬ ((x.data.filter Char.isDigit).head? = some '1') →
      ((x.data.filter Char.isDigit).head? = some '0') →
        formatPhoneNumber x =
          String.mk ('+' :: (x.data.filter Char.isDigit).tail)) ∧
    (¬ ((x.data.filter Char.isDigit).head? = some '1') →
      ¬ ((x.data.filter Char.isDigit).head? = some '0') →
      ¬ (x.data.head? = some '+') →
        formatPhoneNumber x = String.mk ('+' :: x.data.filter Char.isDigit)) ∧
    (¬ ((x.data.filter Char.isDigit).head? = some '1') →
      ¬ ((x.data.filter Char.isDigit).head? = some '0') →
      (x.data.head? = some '+') →
        formatPhoneNumber x = x) ∧
    ((((x.data.filter Char.isDigit).head? = some '1') ∨
      ((x.data.filter Char.isDigit).head? = some '0') ∨
      ¬ (x.data.head? = some '+')) →
        isPlusDigits (formatPhoneNumber x)) := by
  refine ⟨formatPhoneNumber_eq_rule1 x, formatPhoneNumber_eq_rule2 x,
    formatPhoneNumber_eq_rule3 x, formatPhoneNumber_eq_rule4 x, ?_⟩
  intro hcases
  by_cases h1 : (x.data.filter Char.isDigit).head? = some '1'
  · rw [formatPhoneNumber_eq_rule1 x h1]
    exact ⟨rfl, all_isDigit_filter x.data⟩
  · by_cases h0 : (x.data.filter Char.isDigit).head? = some '0'
    · rw [formatPhoneNumber_eq_rule2 x h1 h0]
      exact ⟨rfl, all_isDigit_filter_tail x.data⟩
    · have hp : ¬ (x.data.head? = some '+') := by tauto
      rw [formatPhoneNumber_eq_rule3 x h1 h0 hp]
      exact ⟨rfl, all_isDigit_filter x.data⟩

/-- C2 witness — on the spec's own example `"0712345678"`, rule 3 fires. -/
theorem formatPhoneNumber_rules_amended_witness :
    formatPhoneNumber "0712345678" =
      String.mk ('+' :: ("0712345678".data.filter Char.isDigit).tail) :=
  (formatPhoneNumber_rules_amended "0712345678").2.1 (by decide) (by decide)

/-- C8 — `formatPhoneNumber` is not idempotent on every string: `"00"`
normalizes to `"+0"`, which normalizes again to `"+"`. -/
theorem formatPhoneNumber_not_idempotent_cex :
    ¬ (formatPhoneNumber (formatPhoneNumber "00") = formatPhoneNumber "00") := by
  decide

/-- C8 (amended) — `formatPhoneNumber` is idempotent on every input whose
digit string does not begin with two zeros; only a leading `"00"` in the
digit string (where rule 3 re-fires on its own output) breaks idempotence. -/
theorem formatPhoneNumber_idem_amended (x : String)
    (h : ¬ (((x.data.filter Char.isDigit).head? = some '0') ∧
           ((x.data.filter Char.isDigit).tail.head? = some '0'))) :
    formatPhoneNumber (formatPhoneNumber x) = formatPhoneNumber x := by
  by_cases h1 : (x.data.filter Char.isDigit).head? = some '1'
  · rw [formatPhoneNumber_eq_rule1 x h1]
    have hfilter :
        (String.mk ('+' :: x.data.filter Char.isDigit)).data.filter
          Char.isDigit = x.data.filter Char.isDigit := by
      show ('+' :: x.data.filter Char.isDigit).filter Char.isDigit = _
      rw [filter_isDigit_plus_cons]
      exact filter_isDigit_of_all _ (all_isDigit_filter x.data)
    rw [formatPhoneNumber_eq_rule1 _ (by rw [hfilter]; exact h1)]
    exact congrArg (fun l => String.mk ('+' :: l)) hfilter
  · by_cases h0 : (x.data.filter Char.isDigit).head? = some '0'
    · have hn : ¬ (x.data.filter Char.isDigit).tail.head? = some '0' :=
        fun hc => h ⟨h0, hc⟩
      rw [formatPhoneNumber_eq_rule2 x h1 h0]
      have hfilter :
          (String.mk ('+' :: (x.data.filter Char.isDigit).tail)).data.filter
            Char.isDigit = (x.data.filter Char.isDigit).tail := by
        show ('+' :: (x.data.filter Char.isDigit).tail).filter Char.isDigit = _
        rw [filter_isDigit_plus_cons]
        exact filter_isDigit_of_all _ (all_isDigit_filter_tail x.data)
      by_cases h1t : (x.data.filter Char.isDigit).tail.head? = some '1'
      · rw [formatPhoneNumber_eq_rule1 _ (by rw [hfilter]; exact h1t)]
        exact congrArg (fun l => String.mk ('+' :: l)) hfilter
      · exact formatPhoneNumber_eq_rule4 _ (by rw [hfilter]; exact h1t)
          (by rw [hfilter]; exact hn) rfl
    · by_cases hp : x.data.head? = some '+'
      · have e := formatPhoneNumber_eq_rule4 x h1 h0 hp
        rw [e]
        exact e
      · rw [formatPhoneNumber_eq_rule3 x h1 h0 hp]
        have hfilter :
            (String.mk ('+' :: x.data.filter Char.isDigit)).data.filter
              Char.isDigit = x.data.filter Char.isDigit := by
          show ('+' :: x.data.filter Char.isDigit).filter Char.isDigit = _
          rw [filter_isDigit_plus_cons]
          exact filter_isDigit_of_all _ (all_isDigit_filter x.data)
        exact formatPhoneNumber_eq_rule4 _ (by rw [hfilter]; exact h1)
          (by rw [hfilter]; exact h0) rfl

/-- C8 witness — idempotence at the spec's example input `"0712345678"`. -/
theorem formatPhoneNumber_idem_amended_witness :
    formatPhoneNumber (formatPhoneNumber "0712345678") =
      formatPhoneNumber "0712345678" :=
  formatPhoneNumber_idem_amended "0712345678" (by decide)

/-! ### Branch evaluation lemmas for `verifyCode` -/

theorem verifyCode_notFound_eq (codeId code firstName lastName : String)
    (now createNow : Nat) (freshUid : String) (s : SysState)
    (hci : codeId ≠ "") (hc : code ≠ "") (hf : firstName ≠ "")
    (hl : lastName ≠ "") (hlook : lookupEntry codeId s.codes = none) :
    verifyCode "POST" ⟨codeId, code, firstName, lastName⟩ now createNow
      freshUid s = (.notFound, s) := by
  simp [verifyCode, hci, hc, hf, hl, hlook]

theorem verifyCode_expired_eq (codeId code firstName lastName : String)
    (now createNow : Nat) (freshUid : String) (s : SysState)
    (rec : VerificationData)
    (hci : codeId ≠ "") (hc : code ≠ "") (hf : firstName ≠ "")
    (hl : lastName ≠ "") (hlook : lookupEntry codeId s.codes = some rec)
    (hexp : rec.expiresAt < now) :
    verifyCode "POST" ⟨codeId, code, firstName, lastName⟩ now createNow
      freshUid s =
      (.expired, { s with codes := removeEntry codeId s.codes }) := by
  simp [verifyCode, hci, hc, hf, hl, hlook, hexp]

theorem verifyCode_incorrect_eq (codeId code firstName lastName : String)
    (now createNow : Nat) (freshUid : String) (s : SysState)
    (rec : VerificationData)
    (hci : codeId ≠ "") (hc : code ≠ "") (hf : firstName ≠ "")
    (hl : lastName ≠ "") (hlook : lookupEntry codeId s.codes = some rec)
    (hexp : ¬ rec.expiresAt < now) (hne : rec.code ≠ code) :
    verifyCode "POST" ⟨codeId, code, firstName, lastName⟩ now createNow
      freshUid s = (.incorrectCode, s) := by
  simp [verifyCode, hci, hc, hf, hl, hlook, hexp, hne]

theorem verifyCode_found_eq (codeId code firstName lastName : String)
    (now createNow : Nat) (freshUid : String) (s : SysState)
    (rec : VerificationData) (u : AuthUser)
    (hci : codeId ≠ "") (hc : code ≠ "") (hf : firstName ≠ "")
    (hl : lastName ≠ "") (hlook : lookupEntry codeId s.codes = some rec)
    (hexp : ¬ rec.expiresAt < now) (hcode : rec.code = code)
    (hfind : findAuthByPhone rec.phoneNumber s.authUsers = some u) :
    verifyCode "POST" ⟨codeId, code, firstName, lastName⟩ now createNow
      freshUid s =
      (.success u.uid (createCustomToken u.uid) firstName lastName,
       { codes := removeEntry codeId s.codes,
         authUsers := updateAuthDisplayName u.uid
           (firstName ++ " " ++ lastName) s.authUsers,
         users := rtdbUpdateNames u.uid firstName lastName
           (firstName ++ " " ++ lastName) s.users }) := by
  simp [verifyCode, hci, hc, hf, hl, hlook, hexp, hcode, hfind]

theorem verifyCode_create_eq (codeId code firstName lastName : String)
    (now createNow : Nat) (freshUid : String) (s : SysState)
    (rec : VerificationData)
    (hci : codeId ≠ "") (hc : code ≠ "") (hf : firstName ≠ "")
    (hl : lastName ≠ "") (hlook : lookupEntry codeId s.codes = some rec)
    (hexp : ¬ rec.expiresAt < now) (hcode : rec.code = code)
    (hfind : findAuthByPhone rec.phoneNumber s.authUsers = none) :
    verifyCode "POST" ⟨codeId, code, firstName, lastName⟩ now createNow
      freshUid s =
      (.success freshUid (createCustomToken freshUid) firstName lastName,
       { codes := removeEntry codeId s.codes,
         authUsers :=
           { uid := freshUid, phoneNumber := rec.phoneNumber,
             displayName := firstName ++ " " ++ lastName } :: s.authUsers,
         users := setEntry freshUid
           { firstName := some firstName, lastName := some lastName,
             displayName := none, phoneNumber := some rec.phoneNumber,
             uid := some freshUid, role := some "user",
             createdAt := some createNow } s.users }) := by
  simp [verifyCode, hci, hc, hf, hl, hlook, hexp, hcode, hfind]

/-- Any valid verification returns a success bound to some uid and removes
the record from the codes store. -/
theorem verifyCode_success_shape (codeId code firstName lastName : String)
    (now createNow : Nat) (freshUid : String) (s : SysState)
    (rec : VerificationData)
    (hci : codeId ≠ "") (hc : code ≠ "") (hf : firstName ≠ "")
    (hl : lastName ≠ "") (hlook : lookupEntry codeId s.codes = some rec)
    (hexp : ¬ rec.expiresAt < now) (hcode : rec.code = code) :
    ∃ userId,
      (verifyCode "POST" ⟨codeId, code, firstName, lastName⟩ now createNow
        freshUid s).1 =
        .success userId (createCustomToken userId) firstName lastName ∧
      (verifyCode "POST" ⟨codeId, code, firstName, lastName⟩ now createNow
        freshUid s).2.codes = removeEntry codeId s.codes := by
  cases hfind : findAuthByPhone rec.phoneNumber s.authUsers with
  | some u =>
      exact ⟨u.uid, by
        rw [verifyCode_found_eq codeId code firstName lastName now createNow
          freshUid s rec u hci hc hf hl hlook hexp hcode hfind]
        exact ⟨rfl, rfl⟩⟩
  | none =>
      exact ⟨freshUid, by
        rw [verifyCode_create_eq codeId code firstName lastName now createNow
          freshUid s rec hci hc hf hl hlook hexp hcode hfind]
        exact ⟨rfl, rfl⟩⟩

/-! ### Demonstration state used by the witnesses -/

/-- An unexpired verification record stored under key `"abc"`. -/
def demoRecord : VerificationData :=
  { phoneNumber := "+15551234567", code := "123456",
    expiresAt := 1000, createdAt := 700 }

/-- An identity already registered for the record's phone number. -/
def demoAuthUser : AuthUser :=
  { uid := "u1", phoneNumber := "+15551234567", displayName := "Old Name" }

/-- The `users/u1` directory node for `demoAuthUser`. -/
def demoNode : UserNode :=
  { firstName := some "Old", lastName := some "Name", displayName := none,
    phoneNumber := some "+15551234567", uid := some "u1",
    role := some "admin", createdAt := some 5 }

/-- A state holding `demoRecord`, `demoAuthUser` and `demoNode`. -/
def demoState : SysState :=
  { codes := [("abc", demoRecord)], authUsers := [demoAuthUser],
    users := [("u1", demoNode)] }

/-- A state holding only `demoRecord`, with empty identity directories. -/
def demoStateNoUser : SysState :=
  { codes := [("abc", demoRecord)], authUsers := [], users := [] }

/-! ### C1, C4, C5 — the Verifier's record handling -/

/-- C1 — verification records are single-use: a successful `verifyCode` call
returns success, leaves no record under the consumed `codeId`, and a second
call with the same `codeId` and the same correct code returns the
"Verification code not found" client error without changing the state. -/
theorem verifyCode_single_use (codeId code firstName lastName : String)
    (now createNow : Nat) (freshUid : String) (s : SysState)
    (rec : VerificationData)
    (hci : codeId ≠ "") (hc : code ≠ "") (hf : firstName ≠ "")
    (hl : lastName ≠ "") (hlook : lookupEntry codeId s.codes = some rec)
    (hexp : ¬ rec.expiresAt < now) (hcode : rec.code = code) :
    (∃ userId,
      (verifyCode "POST" ⟨codeId, code, firstName, lastName⟩ now createNow
        freshUid s).1 =
        .success userId (createCustomToken userId) firstName lastName) ∧
    lookupEntry codeId
      ((verifyCode "POST" ⟨codeId, code, firstName, lastName⟩ now createNow
        freshUid s).2).codes = none ∧
    (∀ now' createNow' : Nat, ∀ freshUid' : String,
      verifyCode "POST" ⟨codeId, code, firstName, lastName⟩ now' createNow'
        freshUid'
        ((verifyCode "POST" ⟨codeId, code, firstName, lastName⟩ now createNow
          freshUid s).2) =
      (.notFound,
       (verifyCode "POST" ⟨codeId, code, firstName, lastName⟩ now createNow
         freshUid s).2)) ∧
    verifyErrorOf .notFound = some "Verification code not found" := by
  obtain ⟨userId, hres, hcodes⟩ := verifyCode_success_shape codeId code
    firstName lastName now createNow freshUid s rec hci hc hf hl hlook hexp
    hcode
  have hnone : lookupEntry codeId
      ((verifyCode "POST" ⟨codeId, code, firstName, lastName⟩ now createNow
        freshUid s).2).codes = none := by
    rw [hcodes]
    exact lookupEntry_removeEntry_self codeId s.codes
  refine ⟨⟨userId, hres⟩, hnone, ?_, rfl⟩
  intro now' createNow' freshUid'
  exact verifyCode_notFound_eq codeId code firstName lastName now' createNow'
    freshUid' _ hci hc hf hl hnone

/-- C1 witness — consuming `demoRecord` and retrying at `demoState`. -/
theorem verifyCode_single_use_witness :
    verifyCode "POST" ⟨"abc", "123456", "A", "B"⟩ 950 951 "fresh2"
      ((verifyCode "POST" ⟨"abc", "123456", "A", "B"⟩ 900 901 "fresh"
        demoState).2) =
      (.notFound,
       (verifyCode "POST" ⟨"abc", "123456", "A", "B"⟩ 900 901 "fresh"
         demoState).2) :=
  (verifyCode_single_use "abc" "123456" "A" "B" 900 901 "fresh" demoState
    demoRecord (by decide) (by decide) (by decide) (by decide) (by decide)
    (by decide) (by decide)).2.2.1 950 951 "fresh2"

/-- C4 — `verifyCode` on an existing record with `expiresAt < now` deletes
the record and returns the 400 "Verification code has expired" client
error, with no hypothesis about the Sweeper ever having run. -/
theorem verifyCode_expired_deletes (codeId code firstName lastName : String)
    (now createNow : Nat) (freshUid : String) (s : SysState)
    (rec : VerificationData)
    (hci : codeId ≠ "") (hc : code ≠ "") (hf : firstName ≠ "")
    (hl : lastName ≠ "") (hlook : lookupEntry codeId s.codes = some rec)
    (hexp : rec.expiresAt < now) :
    verifyCode "POST" ⟨codeId, code, firstName, lastName⟩ now createNow
      freshUid s =
      (.expired, { s with codes := removeEntry codeId s.codes }) ∧
    lookupEntry codeId
      ((verifyCode "POST" ⟨codeId, code, firstName, lastName⟩ now createNow
        freshUid s).2).codes = none ∧
    verifyErrorOf .expired = some "Verification code has expired" ∧
    verifyStatusOf .expired = 400 := by
  have he := verifyCode_expired_eq codeId code firstName lastName now
    createNow freshUid s rec hci hc hf hl hlook hexp
  refine ⟨he, ?_, rfl, rfl⟩
  rw [he]
  exact lookupEntry_removeEntry_self codeId s.codes

/-- C4 witness — `demoRecord` checked 1000 ms after its expiry. -/
theorem verifyCode_expired_deletes_witness :
    verifyCode "POST" ⟨"abc", "123456", "A", "B"⟩ 2000 2001 "fresh"
      demoState =
      (.expired, { demoState with codes := removeEntry "abc" demoState.codes }) :=
  (verifyCode_expired_deletes "abc" "123456" "A" "B" 2000 2001 "fresh"
    demoState demoRecord (by decide) (by decide) (by decide) (by decide)
    (by decide) (by decide)).1

/-- C5 — `verifyCode` with a wrong code on an existing, unexpired record
returns the 400 "Incorrect verification code" error and leaves the whole
state unchanged, so the same record still verifies with the correct code
any time before its expiry. -/
theorem verifyCode_incorrect_code_frame (codeId code firstName lastName : String)
    (now createNow : Nat) (freshUid : String) (s : SysState)
    (rec : VerificationData)
    (hci : codeId ≠ "") (hc : code ≠ "") (hf : firstName ≠ "")
    (hl : lastName ≠ "") (hlook : lookupEntry codeId s.codes = some rec)
    (hexp : ¬ rec.expiresAt < now) (hne : rec.code ≠ code) :
    verifyCode "POST" ⟨codeId, code, firstName, lastName⟩ now createNow
      freshUid s = (.incorrectCode, s) ∧
    lookupEntry codeId
      ((verifyCode "POST" ⟨codeId, code, firstName, lastName⟩ now createNow
        freshUid s).2).codes = some rec ∧
    (∀ now' createNow' : Nat, ∀ freshUid' : String, rec.code ≠ "" →
      ¬ rec.expiresAt < now' →
      ∃ userId,
        (verifyCode "POST" ⟨codeId, rec.code, firstName, lastName⟩ now'
          createNow' freshUid' s).1 =
          .success userId (createCustomToken userId) firstName lastName) ∧
    verifyErrorOf .incorrectCode = some "Incorrect verification code" := by
  have he := verifyCode_incorrect_eq codeId code firstName lastName now
    createNow freshUid s rec hci hc hf hl hlook hexp hne
  refine ⟨he, ?_, ?_, rfl⟩
  · rw [he]
    exact hlook
  · intro now' createNow' freshUid' hcne hexp'
    obtain ⟨userId, h1, _⟩ := verifyCode_success_shape codeId rec.code
      firstName lastName now' createNow' freshUid' s rec hci hcne hf hl hlook
      hexp' rfl
    exact ⟨userId, h1⟩

/-- C5 witness — a wrong code against `demoRecord` leaves `demoState`
intact. -/
theorem verifyCode_incorrect_code_frame_witness :
    verifyCode "POST" ⟨"abc", "999999", "A", "B"⟩ 900 901 "fresh"
      demoState = (.incorrectCode, demoState) :=
  (verifyCode_incorrect_code_frame "abc" "999999" "A" "B" 900 901 "fresh"
    demoState demoRecord (by decide) (by decide) (by decide) (by decide)
    (by decide) (by decide) (by decide)).1

/-! ### C3, C9 — the Issuer -/

/-- C3 — the Issuer persists the record, then attempts delivery against the
already-updated store, and the delivery outcome (throw or failure return)
never changes the 200 response carrying the persisted record's `codeId`:
the response and resulting store are identical for every outcome. -/
theorem requestVerification_persist_before_delivery
    (phoneNumber : String) (hp : phoneNumber ≠ "") (now1 now2 : Nat)
    (verificationCode codeId : String) (store : CodesStore)
    (outcome : Except String Bool) :
    (requestVerification "POST" (some phoneNumber) now1 now2 verificationCode
      codeId store outcome).1 = .issued codeId ∧
    reqStatusOf (requestVerification "POST" (some phoneNumber) now1 now2
      verificationCode codeId store outcome).1 = 200 ∧
    lookupEntry codeId (requestVerification "POST" (some phoneNumber) now1
      now2 verificationCode codeId store outcome).2.1 =
      some { phoneNumber := formatPhoneNumber phoneNumber,
             code := verificationCode, expiresAt := now1 + 5 * 60 * 1000,
             createdAt := now2 } ∧
    (∃ i j : Nat, ∃ storeObs : CodesStore, i < j ∧
      (requestVerification "POST" (some phoneNumber) now1 now2
        verificationCode codeId store outcome).2.2.get? i =
        some (.persisted codeId
          { phoneNumber := formatPhoneNumber phoneNumber,
            code := verificationCode, expiresAt := now1 + 5 * 60 * 1000,
            createdAt := now2 }) ∧
      (requestVerification "POST" (some phoneNumber) now1 now2
        verificationCode codeId store outcome).2.2.get? j =
        some (.deliveryAttempted (formatPhoneNumber phoneNumber)
          verificationCode storeObs outcome) ∧
      lookupEntry codeId storeObs =
        some { phoneNumber := formatPhoneNumber phoneNumber,
               code := verificationCode, expiresAt := now1 + 5 * 60 * 1000,
               createdAt := now2 }) ∧
    (∀ outcome' : Except String Bool,
      (requestVerification "POST" (some phoneNumber) now1 now2
        verificationCode codeId store outcome').1 =
        (requestVerification "POST" (some phoneNumber) now1 now2
          verificationCode codeId store outcome).1 ∧
      (requestVerification "POST" (some phoneNumber) now1 now2
        verificationCode codeId store outcome').2.1 =
        (requestVerification "POST" (some phoneNumber) now1 now2
          verificationCode codeId store outcome).2.1) := by
  have hr : ∀ oc : Except String Bool,
      requestVerification "POST" (some phoneNumber) now1 now2
        verificationCode codeId store oc =
      (.issued codeId,
       setEntry codeId
         { phoneNumber := formatPhoneNumber phoneNumber,
           code := verificationCode, expiresAt := now1 + 5 * 60 * 1000,
           createdAt := now2 } store,
       [.persisted codeId
          { phoneNumber := formatPhoneNumber phoneNumber,
            code := verificationCode, expiresAt := now1 + 5 * 60 * 1000,
            createdAt := now2 },
        .deliveryAttempted (formatPhoneNumber phoneNumber) verificationCode
          (setEntry codeId
            { phoneNumber := formatPhoneNumber phoneNumber,
              code := verificationCode, expiresAt := now1 + 5 * 60 * 1000,
              createdAt := now2 } store) oc]) := by
    intro oc
    simp [requestVerification, hp]
  refine ⟨?_, ?_, ?_, ?_, ?_⟩
  · rw [hr outcome]
  · rw [hr outcome]
    rfl
  · rw [hr outcome]
    exact lookupEntry_setEntry_self codeId _ store
  · refine ⟨0, 1, setEntry codeId
      { phoneNumber := formatPhoneNumber phoneNumber,
        code := verificationCode, expiresAt := now1 + 5 * 60 * 1000,
        createdAt := now2 } store, Nat.zero_lt_one, ?_, ?_, ?_⟩
    · rw [hr outcome]
      rfl
    · rw [hr outcome]
      rfl
    · exact lookupEntry_setEntry_self codeId _ store
  · intro outcome'
    rw [hr outcome, hr outcome']
    exact ⟨rfl, rfl⟩

/-- C3 witness — a thrown delivery error still yields the 200 response with
the persisted `codeId`. -/
theorem requestVerification_persist_before_delivery_witness :
    (requestVerification "POST" (some "0712345678") 10 11 "123456" "k1" []
      (.error "network down")).1 = .issued "k1" :=
  (requestVerification_persist_before_delivery "0712345678" (by decide) 10 11
    "123456" "k1" [] (.error "network down")).1

/-- C9 — `expiresAt = createdAt + TTL` does not hold exactly: the code reads
`Date.now()` twice (once for `expiresAt`, once for `createdAt`), so when the
clock advances from 0 to 1 between the reads the persisted record has
`expiresAt = 300000` but `createdAt + 300000 = 300001`. -/
theorem requestVerification_ttl_cex :
    lookupEntry "k1" (requestVerification "POST" (some "0712345678") 0 1
      "123456" "k1" [] (.ok true)).2.1 =
      some { phoneNumber := "+712345678", code := "123456",
             expiresAt := 300000, createdAt := 1 } ∧
    ¬ (VerificationData.expiresAt
        { phoneNumber := "+712345678", code := "123456",
          expiresAt := 300000, createdAt := 1 } =
       VerificationData.createdAt
        { phoneNumber := "+712345678", code := "123456",
          expiresAt := 300000, createdAt := 1 } + 5 * 60 * 1000) := by
  constructor <;> decide

/-- C9 (amended) — every record the Issuer persists has `expiresAt` equal to
the first `Date.now()` read plus the 5-minute TTL (300000 ms) and
`createdAt` equal to the second read; whenever the two reads return the same
millisecond, `expiresAt = createdAt + 300000` exactly. -/
theorem requestVerification_ttl_amended (phoneNumber : String)
    (hp : phoneNumber ≠ "") (now1 now2 : Nat)
    (verificationCode codeId : String) (store : CodesStore)
    (outcome : Except String Bool) (rec : VerificationData)
    (hrec : lookupEntry codeId (requestVerification "POST" (some phoneNumber)
      now1 now2 verificationCode codeId store outcome).2.1 = some rec) :
    rec.expiresAt = now1 + 5 * 60 * 1000 ∧ rec.createdAt = now2 ∧
    (now1 = now2 → rec.expiresAt = rec.createdAt + 5 * 60 * 1000) := by
  have hs : (requestVerification "POST" (some phoneNumber) now1 now2
        verificationCode codeId store outcome).2.1 =
      setEntry codeId
        { phoneNumber := formatPhoneNumber phoneNumber,
          code := verificationCode, expiresAt := now1 + 5 * 60 * 1000,
          createdAt := now2 } store := by
    simp [requestVerification, hp]
  rw [hs, lookupEntry_setEntry_self] at hrec
  injection hrec with h
  subst h
  refine ⟨rfl, rfl, ?_⟩
  intro h2
  rw [h2]

/-- C9 witness — with both clock reads at 42 the persisted record satisfies
the exact TTL equation. -/
theorem requestVerification_ttl_amended_witness :
    VerificationData.expiresAt
      { phoneNumber := "+712345678", code := "123456",
        expiresAt := 42 + 5 * 60 * 1000, createdAt := 42 } =
      VerificationData.createdAt
        { phoneNumber := "+712345678", code := "123456",
          expiresAt := 42 + 5 * 60 * 1000, createdAt := 42 } + 5 * 60 * 1000 :=
  (requestVerification_ttl_amended "0712345678" (by decide) 42 42 "123456"
    "k1" [] (.ok true)
    { phoneNumber := "+712345678", code := "123456",
      expiresAt := 42 + 5 * 60 * 1000, createdAt := 42 } (by decide)).2.2 rfl

/-! ### C6, C10 — the Sweeper -/

theorem contains_iff_mem_str (l : List String) (a : String) :
    l.contains a = true ↔ a ∈ l :=
  List.elem_iff

/-- In a store with distinct keys, a key determines its record. -/
theorem nodup_keys_entry_unique {α : Type} {l : List (String × α)}
    (hnd : (l.map Prod.fst).Nodup) {k : String} {a b : α}
    (ha : (k, a) ∈ l) (hb : (k, b) ∈ l) : a = b := by
  induction l with
  | nil => cases ha
  | cons p t ih =>
    rw [List.map_cons, List.nodup_cons] at hnd
    rcases List.mem_cons.mp ha with ha1 | ha2 <;>
      rcases List.mem_cons.mp hb with hb1 | hb2
    · have h2 : (k, a) = (k, b) := ha1.trans hb1.symm
      injection h2 with h3 h4
    · have hk : k ∈ t.map Prod.fst := List.mem_map.mpr ⟨(k, b), hb2, rfl⟩
      have hp1 : p.1 = k := by rw [← ha1]
      exact absurd hk (hp1 ▸ hnd.1)
    · have hk : k ∈ t.map Prod.fst := List.mem_map.mpr ⟨(k, a), ha2, rfl⟩
      have hp1 : p.1 = k := by rw [← hb1]
      exact absurd hk (hp1 ▸ hnd.1)
    · exact ih hnd.2 ha2 hb2

theorem mem_cleanupExpiredCodes_iff (now : Nat) (store : CodesStore)
    (hnd : (store.map Prod.fst).Nodup) (k : String) (rec : VerificationData) :
    (k, rec) ∈ cleanupExpiredCodes now store ↔
      ((k, rec) ∈ store ∧ now < rec.expiresAt) := by
  simp only [cleanupExpiredCodes]
  by_cases hek :
      ((store.filter (fun p => decide (p.2.expiresAt ≤ now))).map
        Prod.fst).isEmpty = true
  · rw [if_pos hek]
    rw [List.isEmpty_iff, List.map_eq_nil_iff] at hek
    have hall : ∀ p ∈ store, now < p.2.expiresAt := by
      intro p hp
      have := List.filter_eq_nil_iff.mp hek p hp
      simpa [Nat.not_le] using this
    exact ⟨fun hm => ⟨hm, hall _ hm⟩, fun hm => hm.1⟩
  · rw [if_neg hek]
    rw [List.mem_filter]
    constructor
    · rintro ⟨hm, hbool⟩
      refine ⟨hm, ?_⟩
      by_contra hlt
      have hle : rec.expiresAt ≤ now := Nat.le_of_not_lt hlt
      have hk : k ∈ (store.filter
          (fun p => decide (p.2.expiresAt ≤ now))).map Prod.fst :=
        List.mem_map.mpr ⟨(k, rec),
          List.mem_filter.mpr ⟨hm, by simpa using hle⟩, rfl⟩
      rw [Bool.not_eq_true', ← Bool.not_eq_true] at hbool
      exact hbool ((contains_iff_mem_str _ _).mpr hk)
    · rintro ⟨hm, hlt⟩
      refine ⟨hm, ?_⟩
      rw [Bool.not_eq_true', ← Bool.not_eq_true]
      intro hcont
      obtain ⟨q, hq, hq1⟩ :=
        List.mem_map.mp ((contains_iff_mem_str _ _).mp hcont)
      obtain ⟨hqs, hqle⟩ := List.mem_filter.mp hq
      have hq1' : q.1 = k := hq1
      have hq2 : (k, q.2) ∈ store := by
        rw [← hq1']
        exact hqs
      have hqr : q.2 = rec := nodup_keys_entry_unique hnd hq2 hm
      rw [hqr] at hqle
      rw [decide_eq_true_eq] at hqle
      exact Nat.lt_irrefl now (Nat.lt_of_lt_of_le hlt hqle)

/-- C6 — a Sweeper run at `now` keeps exactly the records with
`expiresAt > now`: a record is in the swept store iff it was present and
unexpired, and when nothing matches the store is returned untouched. -/
theorem cleanupExpiredCodes_exact (now : Nat) (store : CodesStore)
    (hnd : (store.map Prod.fst).Nodup) :
    (∀ (k : String) (rec : VerificationData),
      (k, rec) ∈ cleanupExpiredCodes now store ↔
        ((k, rec) ∈ store ∧ now < rec.expiresAt)) ∧
    ((∀ p ∈ store, now < p.2.expiresAt) →
      cleanupExpiredCodes now store = store) := by
  refine ⟨fun k rec => mem_cleanupExpiredCodes_iff now store hnd k rec, ?_⟩
  intro hall
  simp only [cleanupExpiredCodes]
  have hfil : store.filter (fun p => decide (p.2.expiresAt ≤ now)) = [] :=
    List.filter_eq_nil_iff.mpr
      (fun a ha => by simpa using Nat.not_le.mpr (hall a ha))
  rw [hfil]
  rfl

/-- C6 witness — at `now = 1000` the Sweeper removes a record expiring at
900 and keeps one expiring at 2000 (records written as
⟨phoneNumber, code, expiresAt, createdAt⟩). -/
theorem cleanupExpiredCodes_exact_witness :
    ("fresh1", (⟨"+15550000002", "222222", 2000, 0⟩ : VerificationData)) ∈
      cleanupExpiredCodes 1000
        [("old1", ⟨"+15550000001", "111111", 900, 0⟩),
         ("fresh1", ⟨"+15550000002", "222222", 2000, 0⟩)] ∧
    ("old1", (⟨"+15550000001", "111111", 900, 0⟩ : VerificationData)) ∉
      cleanupExpiredCodes 1000
        [("old1", ⟨"+15550000001", "111111", 900, 0⟩),
         ("fresh1", ⟨"+15550000002", "222222", 2000, 0⟩)] := by
  have h := cleanupExpiredCodes_exact 1000
    [("old1", ⟨"+15550000001", "111111", 900, 0⟩),
     ("fresh1", ⟨"+15550000002", "222222", 2000, 0⟩)] (by decide)
  constructor
  · exact (h.1 "fresh1" _).mpr ⟨by decide, by decide⟩
  · intro hc
    exact absurd ((h.1 "old1" _).mp hc).2 (by decide)

/-- A record at or past expiry is gone after a Sweeper run. -/
theorem lookupEntry_cleanupExpiredCodes_none (now : Nat) (store : CodesStore)
    (k : String) (rec : VerificationData)
    (hmem : (k, rec) ∈ store) (hle : rec.expiresAt ≤ now) :
    lookupEntry k (cleanupExpiredCodes now store) = none := by
  simp only [cleanupExpiredCodes]
  have hk : k ∈ (store.filter
      (fun p => decide (p.2.expiresAt ≤ now))).map Prod.fst :=
    List.mem_map.mpr ⟨(k, rec),
      List.mem_filter.mpr ⟨hmem, by simpa using hle⟩, rfl⟩
  have hne : ¬ ((store.filter
      (fun p => decide (p.2.expiresAt ≤ now))).map Prod.fst).isEmpty = true := by
    intro he
    rw [List.isEmpty_iff] at he
    rw [he] at hk
    cases hk
  rw [if_neg hne]
  have hfind : (store.filter (fun p =>
      !((store.filter (fun p => decide (p.2.expiresAt ≤ now))).map
          Prod.fst).contains p.1)).find? (fun p => p.1 == k) = none := by
    rw [List.find?_eq_none]
    intro p hp
    obtain ⟨_, hbool⟩ := List.mem_filter.mp hp
    intro hbk
    rw [beq_iff_eq] at hbk
    rw [hbk, Bool.not_eq_true', ← Bool.not_eq_true] at hbool
    exact hbool ((contains_iff_mem_str _ _).mpr hk)
  unfold lookupEntry
  rw [hfind]
  rfl

theorem mem_of_lookupEntry_some {α : Type} {k : String}
    {l : List (String × α)} {v : α}
    (h : lookupEntry k l = some v) : (k, v) ∈ l := by
  unfold lookupEntry at h
  cases hf : l.find? (fun p => p.1 == k) with
  | none =>
      rw [hf] at h
      cases h
  | some q =>
      rw [hf] at h
      have hq : q ∈ l := List.mem_of_find?_eq_some hf
      have hqp := List.find?_some hf
      have hq1 : q.1 = k := by simpa using hqp
      have hv : q.2 = v := Option.some.inj h
      rw [← hq1, ← hv]
      exact hq

/-- C10 — at the exact expiry boundary (`expiresAt = now`) the Verifier and
the Sweeper disagree: `verifyCode` does not report "expired" (its check is
the strict `expiresAt < now`) and accepts the correct code, while a Sweeper
run at the same `now` (inclusive `expiresAt ≤ now` query) deletes the
record. -/
theorem verifyCode_cleanup_boundary (codeId code firstName lastName : String)
    (now createNow : Nat) (freshUid : String) (s : SysState)
    (rec : VerificationData)
    (hci : codeId ≠ "") (hc : code ≠ "") (hf : firstName ≠ "")
    (hl : lastName ≠ "") (hlook : lookupEntry codeId s.codes = some rec)
    (hexp : rec.expiresAt = now) (hcode : rec.code = code) :
    (verifyCode "POST" ⟨codeId, code, firstName, lastName⟩ now createNow
      freshUid s).1 ≠ .expired ∧
    (∃ userId,
      (verifyCode "POST" ⟨codeId, code, firstName, lastName⟩ now createNow
        freshUid s).1 =
        .success userId (createCustomToken userId) firstName lastName) ∧
    lookupEntry codeId (cleanupExpiredCodes now s.codes) = none := by
  have hnl : ¬ rec.expiresAt < now := by
    rw [hexp]
    exact Nat.lt_irrefl now
  obtain ⟨userId, hres, _⟩ := verifyCode_success_shape codeId code firstName
    lastName now createNow freshUid s rec hci hc hf hl hlook hnl hcode
  refine ⟨?_, ⟨userId, hres⟩, ?_⟩
  · rw [hres]
    intro hcon
    cases hcon
  · exact lookupEntry_cleanupExpiredCodes_none now s.codes codeId rec
      (mem_of_lookupEntry_some hlook) (Nat.le_of_eq hexp)

/-- C10 witness — `demoRecord` expires at 1000: verified successfully at
`now = 1000` yet swept at `now = 1000`. -/
theorem verifyCode_cleanup_boundary_witness :
    lookupEntry "abc" (cleanupExpiredCodes 1000 demoState.codes) = none :=
  (verifyCode_cleanup_boundary "abc" "123456" "A" "B" 1000 1001 "fresh"
    demoState demoRecord (by decide) (by decide) (by decide) (by decide)
    (by decide) (by decide) (by decide)).2.2

/-! ### C7 — identity resolution -/

theorem updateAuthDisplayName_mem (uid dn : String) (l : List AuthUser) :
    ∀ v ∈ updateAuthDisplayName uid dn l,
      ∃ w ∈ l, v.uid = w.uid ∧ v.phoneNumber = w.phoneNumber := by
  intro v hv
  obtain ⟨w, hw, hwv⟩ := List.mem_map.mp hv
  refine ⟨w, hw, ?_⟩
  by_cases h : w.uid = uid
  · rw [← hwv]
    simp [h]
  · rw [← hwv]
    simp [h]

theorem updateAuthDisplayName_self_mem (u : AuthUser) (dn : String)
    (l : List AuthUser) (hu : u ∈ l) :
    ∃ v ∈ updateAuthDisplayName u.uid dn l,
      v.uid = u.uid ∧ v.displayName = dn := by
  refine ⟨{ u with displayName := dn }, ?_, rfl, rfl⟩
  exact List.mem_map.mpr ⟨u, hu, by simp⟩

theorem updateAuthDisplayName_countP (uid dn p : String) (l : List AuthUser) :
    (updateAuthDisplayName uid dn l).countP (fun v => v.phoneNumber == p) =
      l.countP (fun v => v.phoneNumber == p) := by
  unfold updateAuthDisplayName
  rw [List.countP_map]
  apply List.countP_congr
  intro v hv
  by_cases h : v.uid = uid <;> simp [h, Function.comp]

theorem countP_eq_zero_of_findAuthByPhone_none (phone : String)
    (l : List AuthUser) (h : findAuthByPhone phone l = none) :
    l.countP (fun v => v.phoneNumber == phone) = 0 := by
  unfold findAuthByPhone at h
  rw [List.find?_eq_none] at h
  rw [List.countP_eq_zero]
  exact h

theorem findAuthByPhone_some_mem {phone : String} {l : List AuthUser}
    {u : AuthUser} (h : findAuthByPhone phone l = some u) :
    u ∈ l ∧ u.phoneNumber = phone := by
  refine ⟨List.mem_of_find?_eq_some h, ?_⟩
  have hp := List.find?_some h
  simpa using hp

theorem lookupEntry_rtdbUpdateNames (uid fn ln dn : String)
    (users : List (String × UserNode)) (node : UserNode)
    (h : lookupEntry uid users = some node) :
    lookupEntry uid (rtdbUpdateNames uid fn ln dn users) =
      some (mergeNameFields fn ln dn node) := by
  unfold rtdbUpdateNames
  rw [h]
  exact lookupEntry_setEntry_self uid _ users

/-- C7 — a phone number determines at most one identity.  On a valid
verification: if an identity with the record's phone number exists, the call
succeeds bound to its `uid`, the identity list keeps its length and every
member keeps its `uid` and `phoneNumber` (no second identity, no uid
change) while the matched identity's `displayName` becomes the submitted
names, and the `users/` node is merged via `mergeNameFields`, which keeps
its `role` and `uid` fields; if no identity exists, exactly one identity is
created for that phone number and its directory node has role `"user"`.
In both cases at-most-one-identity-per-phone-number is preserved. -/
theorem verifyCode_identity_resolution (codeId code firstName lastName : String)
    (now createNow : Nat) (freshUid : String) (s : SysState)
    (rec : VerificationData)
    (hci : codeId ≠ "") (hc : code ≠ "") (hf : firstName ≠ "")
    (hl : lastName ≠ "") (hlook : lookupEntry codeId s.codes = some rec)
    (hexp : ¬ rec.expiresAt < now) (hcode : rec.code = code) :
    (∀ u, findAuthByPhone rec.phoneNumber s.authUsers = some u →
      (verifyCode "POST" ⟨codeId, code, firstName, lastName⟩ now createNow
        freshUid s).1 =
        .success u.uid (createCustomToken u.uid) firstName lastName ∧
      ((verifyCode "POST" ⟨codeId, code, firstName, lastName⟩ now createNow
        freshUid s).2).authUsers.length = s.authUsers.length ∧
      (∀ v ∈ ((verifyCode "POST" ⟨codeId, code, firstName, lastName⟩ now
          createNow freshUid s).2).authUsers,
        ∃ w ∈ s.authUsers, v.uid = w.uid ∧ v.phoneNumber = w.phoneNumber) ∧
      (∃ v ∈ ((verifyCode "POST" ⟨codeId, code, firstName, lastName⟩ now
          createNow freshUid s).2).authUsers,
        v.uid = u.uid ∧ v.displayName = firstName ++ " " ++ lastName) ∧
      (∀ node : UserNode, lookupEntry u.uid s.users = some node →
        lookupEntry u.uid ((verifyCode "POST"
          ⟨codeId, code, firstName, lastName⟩ now createNow
          freshUid s).2).users =
          some (mergeNameFields firstName lastName
            (firstName ++ " " ++ lastName) node))) ∧
    (findAuthByPhone rec.phoneNumber s.authUsers = none →
      (verifyCode "POST" ⟨codeId, code, firstName, lastName⟩ now createNow
        freshUid s).1 =
        .success freshUid (createCustomToken freshUid) firstName lastName ∧
      ((verifyCode "POST" ⟨codeId, code, firstName, lastName⟩ now createNow
        freshUid s).2).authUsers.length = s.authUsers.length + 1 ∧
      ((verifyCode "POST" ⟨codeId, code, firstName, lastName⟩ now createNow
        freshUid s).2).authUsers.countP
          (fun v => v.phoneNumber == rec.phoneNumber) = 1 ∧
      lookupEntry freshUid ((verifyCode "POST"
        ⟨codeId, code, firstName, lastName⟩ now createNow
        freshUid s).2).users =
        some { firstName := some firstName, lastName := some lastName,
               displayName := none, phoneNumber := some rec.phoneNumber,
               uid := some freshUid, role := some "user",
               createdAt := some createNow }) ∧
    ((∀ p : String,
        s.authUsers.countP (fun v => v.phoneNumber == p) ≤ 1) →
      ∀ p : String,
        ((verifyCode "POST" ⟨codeId, code, firstName, lastName⟩ now createNow
          freshUid s).2).authUsers.countP
            (fun v => v.phoneNumber == p) ≤ 1) := by
  refine ⟨?_, ?_, ?_⟩
  · intro u hfind
    rw [verifyCode_found_eq codeId code firstName lastName now createNow
      freshUid s rec u hci hc hf hl hlook hexp hcode hfind]
    refine ⟨rfl, List.length_map _ _, updateAuthDisplayName_mem _ _ _, ?_, ?_⟩
    · exact updateAuthDisplayName_self_mem u (firstName ++ " " ++ lastName)
        s.authUsers (findAuthByPhone_some_mem hfind).1
    · intro node hn
      exact lookupEntry_rtdbUpdateNames u.uid firstName lastName
        (firstName ++ " " ++ lastName) s.users node hn
  · intro hfind
    rw [verifyCode_create_eq codeId code firstName lastName now createNow
      freshUid s rec hci hc hf hl hlook hexp hcode hfind]
    refine ⟨rfl, rfl, ?_, ?_⟩
    · rw [List.countP_cons]
      rw [countP_eq_zero_of_findAuthByPhone_none rec.phoneNumber s.authUsers
        hfind]
      simp
    · exact lookupEntry_setEntry_self freshUid _ s.users
  · intro hinv p
    cases hfind : findAuthByPhone rec.phoneNumber s.authUsers with
    | some u =>
        rw [verifyCode_found_eq codeId code firstName lastName now createNow
          freshUid s rec u hci hc hf hl hlook hexp hcode hfind]
        rw [show ((VerifyResp.success u.uid (createCustomToken u.uid)
            firstName lastName,
          ({ codes := removeEntry codeId s.codes,
             authUsers := updateAuthDisplayName u.uid
               (firstName ++ " " ++ lastName) s.authUsers,
             users := rtdbUpdateNames u.uid firstName lastName
               (firstName ++ " " ++ lastName) s.users } : SysState)).2).authUsers
            = updateAuthDisplayName u.uid (firstName ++ " " ++ lastName)
              s.authUsers from rfl]
        rw [updateAuthDisplayName_countP]
        exact hinv p
    | none =>
        rw [verifyCode_create_eq codeId code firstName lastName now createNow
          freshUid s rec hci hc hf hl hlook hexp hcode hfind]
        rw [show ((VerifyResp.success freshUid (createCustomToken freshUid)
            firstName lastName,
          ({ codes := removeEntry codeId s.codes,
             authUsers :=
               { uid := freshUid, phoneNumber := rec.phoneNumber,
                 displayName := firstName ++ " " ++ lastName } :: s.authUsers,
             users := setEntry freshUid
               { firstName := some firstName, lastName := some lastName,
                 displayName := none, phoneNumber := some rec.phoneNumber,
                 uid := some freshUid, role := some "user",
                 createdAt := some createNow } s.users } : SysState)).2).authUsers
            = { uid := freshUid, phoneNumber := rec.phoneNumber,
                displayName := firstName ++ " " ++ lastName } :: s.authUsers
            from rfl]
        rw [List.countP_cons]
        by_cases hpp : rec.phoneNumber = p
        · rw [← hpp]
          rw [countP_eq_zero_of_findAuthByPhone_none rec.phoneNumber
            s.authUsers hfind]
          simp
        · have hb : (rec.phoneNumber == p) = false := by
            simp [hpp]
          simpa [hb] using hinv p

/-- C7 witness — verifying `demoRecord` at `demoState`, whose phone number
already belongs to `demoAuthUser`, succeeds bound to uid `"u1"`. -/
theorem verifyCode_identity_resolution_witness :
    (verifyCode "POST" ⟨"abc", "123456", "A", "B"⟩ 900 901 "fresh"
      demoState).1 =
      .success "u1" (createCustomToken "u1") "A" "B" :=
  ((verifyCode_identity_resolution "abc" "123456" "A" "B" 900 901 "fresh"
    demoState demoRecord (by decide) (by decide) (by decide) (by decide)
    (by decide) (by decide) (by decide)).1 demoAuthUser (by decide)).1

end WhatsAppAuth
